import Mathlib

/-!
Shallow embedding of the data-simulator repository (src/data_generator.py,
src/data_object_manager.py, src/api_server.py) and proofs about it.

Numeric values (Python floats) are modelled as rationals; wall-clock
timestamps as rationals; the random draws made by `random.uniform`,
`random.randint` and `random.choice` are passed to the update functions as
explicit parameters.
-/

/-- A data point: `DataPoint.__init__` stores a value and a timestamp
(`datetime.now()` at creation time, modelled as a rational passed in). -/
structure DataPoint (α : Type) where
  value : α
  timestamp : ℚ
deriving DecidableEq, Repr

/-- Python's `lst[-k:]` for a nonnegative `k`: the last `k` elements,
except that `lst[-0:]` is the whole list. -/
def pyTakeLast (l : List α) (k : ℕ) : List α :=
  if k = 0 then l else l.drop (l.length - k)

/-- Python's `lst[-c:]` for an arbitrary integer `c`: for positive `c` the
last `c` elements (all of them when `c ≥ len`), for `c = 0` the whole list,
for negative `c` the suffix starting at index `-c`. -/
def pySliceNeg (l : List α) (c : ℤ) : List α :=
  if 0 < c then l.drop (l.length - c.toNat) else l.drop (-c).toNat

/-- The trimming step shared by every generator's `update`:
`if len(self.history) > self.history_limit: self.history = self.history[-self.history_limit:]`. -/
def trimHistory (limit : ℕ) (h : List (DataPoint α)) : List (DataPoint α) :=
  if h.length > limit then pyTakeLast h limit else h

-- sanity checks on the Python slice semantics
example : pyTakeLast [1, 2, 3, 4] 2 = [3, 4] := by decide
example : pyTakeLast [1, 2, 3] 0 = [1, 2, 3] := by decide
example : pySliceNeg [1, 2, 3, 4] (-1) = [2, 3, 4] := by decide
example : pySliceNeg [1, 2, 3, 4] 0 = [1, 2, 3, 4] := by decide
example : pySliceNeg [1, 2, 3, 4] 2 = [3, 4] := by decide
example : pySliceNeg [1, 2, 3, 4] 9 = [1, 2, 3, 4] := by decide

/-! ## RandomDataGenerator -/

/-- State of `RandomDataGenerator` (the fields its `update` touches). -/
structure RandomDataGenerator where
  base_value : ℚ
  update_range : ℚ × ℚ
  min_value : ℚ
  max_value : ℚ
  history_limit : ℕ
  current_value : ℚ
  history : List (DataPoint ℚ)
deriving DecidableEq

/-- `RandomDataGenerator.update`: `change` is the value drawn by
`random.uniform(self.update_range[0], self.update_range[1])`, `now` is
the clock reading used for the appended point's timestamp. -/
def RandomDataGenerator.update (g : RandomDataGenerator) (change : ℚ) (now : ℚ) : RandomDataGenerator :=
  let current_value := if g.history = [] then g.base_value else g.current_value
  let new_value := current_value + change
  let new_value := max g.min_value (min g.max_value new_value)
  { g with
    current_value := new_value
    history := trimHistory g.history_limit (g.history ++ [⟨new_value, now⟩]) }

/-- `RandomDataGenerator.__init__`: the base class sets `history = []`,
`current_value = 0.0` and then (auto_update) calls `update()` once, with
draw `change` at time `now`. -/
def RandomDataGenerator.init (base_value : ℚ) (update_range : ℚ × ℚ) (min_value max_value : ℚ)
    (history_limit : ℕ) (change now : ℚ) : RandomDataGenerator :=
  RandomDataGenerator.update
    { base_value, update_range, min_value, max_value, history_limit
      current_value := 0, history := [] } change now

/-! ## StepDataGenerator -/

/-- State of `StepDataGenerator`. -/
structure StepDataGenerator where
  values : List ℚ
  dwell_time : ℚ
  loop : Bool
  current_index : ℕ
  last_change_time : ℚ
  history_limit : ℕ
  current_value : ℚ
  history : List (DataPoint ℚ)
deriving DecidableEq

/-- The index-advance phase of `StepDataGenerator.update`: when
`current_time - last_change_time ≥ dwell_time`, set `last_change_time`
and advance `current_index` (wrap to 0 only when `loop`, hold at the end
otherwise). -/
def StepDataGenerator.advance (g : StepDataGenerator) (now : ℚ) : StepDataGenerator :=
  if g.dwell_time ≤ now - g.last_change_time then
    { g with
      last_change_time := now
      current_index :=
        if g.current_index < g.values.length - 1 then g.current_index + 1
        else if g.loop then 0 else g.current_index }
  else g

/-- The dedup-append phase of `StepDataGenerator.update`: append
`values[current_index]` (and set `current_value`) only when history is
empty or its last value differs. -/
def StepDataGenerator.record (g : StepDataGenerator) (now : ℚ) : StepDataGenerator :=
  if g.history = [] ∨
      g.history.getLast?.map DataPoint.value ≠ some (g.values.getD g.current_index 0) then
    { g with
      current_value := g.values.getD g.current_index 0
      history := trimHistory g.history_limit
        (g.history ++ [⟨g.values.getD g.current_index 0, now⟩]) }
  else g

/-- `StepDataGenerator.update` at clock reading `now` (Python
`time.time()`): empty `values` is a no-op; otherwise the index-advance
phase runs, then the dedup-append phase records `values[current_index]`. -/
def StepDataGenerator.update (g : StepDataGenerator) (now : ℚ) : StepDataGenerator :=
  if g.values = [] then g
  else (g.advance now).record now

/-- `StepDataGenerator.__init__`: records `last_change_time = time.time()`
(`t_init`), then the base class calls `update()` once at time `now`. -/
def StepDataGenerator.init (values : List ℚ) (dwell_time : ℚ) (loop : Bool)
    (history_limit : ℕ) (t_init now : ℚ) : StepDataGenerator :=
  StepDataGenerator.update
    { values, dwell_time, loop, current_index := 0, last_change_time := t_init
      history_limit, current_value := 0, history := [] } now

/-! ## OrderDataGenerator -/

/-- The structured record built by `OrderDataGenerator.update` (its
`order_data` dict; the `time` string is `datetime.now().strftime(...)`,
passed in here). -/
structure OrderRecord where
  order_id : ℤ
  otime : String
  location : String
  power_demand : ℤ
deriving DecidableEq

/-- State of `OrderDataGenerator`. -/
structure OrderDataGenerator where
  order_id_base : ℤ
  current_order_id : ℤ
  id_increment_range : ℤ × ℤ
  locations : List String
  power_demand_range : ℤ × ℤ
  unit : String
  history_limit : ℕ
  history : List (DataPoint OrderRecord)
deriving DecidableEq

/-- `OrderDataGenerator.update`: `id_increment` is the draw of
`random.randint(*id_increment_range)`, `location` the draw of
`random.choice(locations)`, `power_demand` the draw of
`random.randint(*power_demand_range)`. -/
def OrderDataGenerator.update (g : OrderDataGenerator) (id_increment : ℤ) (otime location : String)
    (power_demand : ℤ) (now : ℚ) : OrderDataGenerator :=
  let new_id := g.current_order_id + id_increment
  { g with
    current_order_id := new_id
    history := trimHistory g.history_limit
      (g.history ++ [⟨⟨new_id, otime, location, power_demand⟩, now⟩]) }

/-- `OrderDataGenerator.__init__`: seeds `current_order_id = order_id_base`,
then the base class calls `update()` once (with the constructor's draws). -/
def OrderDataGenerator.init (order_id_base : ℤ) (id_increment_range : ℤ × ℤ)
    (locations : List String) (power_demand_range : ℤ × ℤ) (unit : String)
    (history_limit : ℕ) (id_increment : ℤ) (otime location : String)
    (power_demand : ℤ) (now : ℚ) : OrderDataGenerator :=
  OrderDataGenerator.update
    { order_id_base, current_order_id := order_id_base, id_increment_range
      locations, power_demand_range, unit, history_limit, history := [] }
    id_increment otime location power_demand now

/-- A `power_demand` field as returned by the order accessors: numeric in
the stored record, replaced by a formatted string in the returned copy
when a unit is configured. -/
inductive PDValue where
  | num (n : ℤ)
  | str (s : String)
deriving DecidableEq

/-- The read-time formatting applied by `get_current_data`/`get_history`:
`f"{power_demand} ({self.unit})"` when `self.unit` is non-empty (Python
truthiness of the string), the untouched number otherwise. -/
def formatPowerDemand (pd : ℤ) (unit : String) : PDValue :=
  if unit = "" then PDValue.num pd else PDValue.str (toString pd ++ " (" ++ unit ++ ")")

/-- The copied order record as returned to a caller. -/
structure OrderView where
  order_id : ℤ
  otime : String
  location : String
  power_demand : PDValue
deriving DecidableEq

/-- The per-record copy-and-format step shared by
`OrderDataGenerator.get_current_data` and `get_history`: the returned
record is a copy, with `power_demand` rendered via the unit. -/
def OrderRecord.render (r : OrderRecord) (unit : String) : OrderView :=
  { order_id := r.order_id, otime := r.otime, location := r.location
    power_demand := formatPowerDemand r.power_demand unit }

/-- `OrderDataGenerator.get_current_data`: returns the (unchanged) state
paired with the latest point rendered, or nothing when history is empty.
The method only reads under the lock; the returned state is the state
after the call. -/
def OrderDataGenerator.get_current_data (g : OrderDataGenerator) : OrderDataGenerator × Option (OrderView × ℚ) :=
  (g, g.history.getLast?.map (fun p => (p.value.render g.unit, p.timestamp)))

/-- `OrderDataGenerator.get_history(count)`: full history when `count` is
`None` or `count ≥ len(history)`, otherwise `history[-count:]`; each
returned record is rendered with the unit. Returns the (unchanged) state
paired with the data. -/
def OrderDataGenerator.get_history (g : OrderDataGenerator) (count : Option ℤ) :
    OrderDataGenerator × List (OrderView × ℚ) :=
  let history_points :=
    match count with
    | none => g.history
    | some c => if (g.history.length : ℤ) ≤ c then g.history else pySliceNeg g.history c
  (g, history_points.map (fun p => (p.value.render g.unit, p.timestamp)))

/-- `api_server.get_object_history` for a non-order generator: the full
history (as returned by `BaseDataGenerator.get_history`), trimmed to the
last `count` points only when `count` is present and `> 0`. -/
def apiHistoryNonOrder (history : List (DataPoint ℚ)) (count : Option ℤ) :
    List (DataPoint ℚ) :=
  match count with
  | some c => if 0 < c then pySliceNeg history c else history
  | none => history

/-! ## SumDataGenerator -/

/-- What one `get_current_data` read of a named source can yield inside
`SumDataGenerator.update`: the lookup may return no object, the object's
current value may be `None`, it may be non-numeric (e.g. an order record),
it may raise (caught and logged), or it may be a number. -/
inductive SourceRead where
  | notFound
  | noValue
  | nonNumeric
  | numeric (q : ℚ)
  | raises
deriving DecidableEq

/-- The contribution of one source read to the running total: only a
numeric value adds to `total` and bumps `count`; every other outcome is
skipped. -/
def SourceRead.contribution : SourceRead → Option ℚ
  | .numeric q => some q
  | _ => none

/-- State of `SumDataGenerator`; `has_manager` models whether
`self.object_manager` is set (creation without a manager leaves it
`None` and `update` returns immediately). -/
structure SumDataGenerator where
  source_objects : List String
  has_manager : Bool
  history_limit : ℕ
  current_value : ℚ
  history : List (DataPoint ℚ)
deriving DecidableEq

/-- The accumulation loop of `SumDataGenerator.update` over
`source_objects`: running `(total, count)`, starting from `(0.0, 0)`. -/
def sumSources (env : String → SourceRead) (names : List String) : ℚ × ℕ :=
  names.foldl
    (fun acc name =>
      match (env name).contribution with
      | some v => (acc.1 + v, acc.2 + 1)
      | none => acc)
    (0, 0)

/-- `SumDataGenerator.update`: `env` is the registry view at the time of
the call (what `object_manager.get_object(name).get_current_data()`
yields per name). With no manager or no sources it returns immediately;
a point is appended (and `current_value` set) only when `count > 0`. -/
def SumDataGenerator.update (g : SumDataGenerator) (env : String → SourceRead)
    (now : ℚ) : SumDataGenerator :=
  if ¬ g.has_manager ∨ g.source_objects = [] then g
  else if 0 < (sumSources env g.source_objects).2 then
    { g with
      current_value := (sumSources env g.source_objects).1
      history := trimHistory g.history_limit
        (g.history ++ [⟨(sumSources env g.source_objects).1, now⟩]) }
  else g

/-- `SumDataGenerator.first_update` is `update`. -/
def SumDataGenerator.first_update (g : SumDataGenerator) (env : String → SourceRead)
    (now : ℚ) : SumDataGenerator :=
  g.update env now

/-- `SumDataGenerator.__init__`: stores the attributes and performs no
update — history starts empty, `current_value` starts at `0.0`. -/
def SumDataGenerator.init (source_objects : List String) (has_manager : Bool)
    (history_limit : ℕ) : SumDataGenerator :=
  { source_objects, has_manager, history_limit, current_value := 0, history := [] }

/-! ## Registry construction (`DataObjectManager._create_objects_from_config`)

`sum_configs` is modelled as an association list (a Python dict in
insertion order: keys unique), each sum name mapped to its
`source_objects`; `objects` is the list of names created so far (the
non-sum objects, by the time the dependency analysis runs). The Python
recursion needs no fuel because each level adds a fresh name to
`visited`; the fuel argument here is set to `sum_configs.length + 1` by
the caller, which dominates that depth. -/

mutual

/-- `check_dependencies(sum_name, visited, path)` from
`_create_objects_from_config`: returns the ordered list of sum objects to
create (dependencies first) together with the cycle warnings it printed
(each warning is the `path + [sum_name]` it reported). -/
def checkDependencies (sumConfigs : List (String × List String)) (objects : List String)
    (fuel : ℕ) (sumName : String) (visited path : List String) :
    List String × List (List String) :=
  match fuel with
  | 0 => ([], [])
  | fuel' + 1 =>
    if sumName ∈ visited then
      ([], [path ++ [sumName]])
    else
      let visited' := visited ++ [sumName]
      let path' := path ++ [sumName]
      match sumConfigs.lookup sumName with
      | none => ([], [])
      | some sources =>
        let r := checkDependenciesList sumConfigs objects fuel' visited' path' sources
        if sumName ∉ objects then (r.1 ++ [sumName], r.2) else r
termination_by (fuel, 0)

/-- The `for source in sources` loop inside `check_dependencies`: recurse
into each source that is itself a sum config and not yet created,
concatenating results in order. -/
def checkDependenciesList (sumConfigs : List (String × List String)) (objects : List String)
    (fuel : ℕ) (visited path : List String) (sources : List String) :
    List String × List (List String) :=
  match sources with
  | [] => ([], [])
  | src :: rest =>
    let r1 :=
      if (sumConfigs.lookup src).isSome ∧ src ∉ objects then
        checkDependencies sumConfigs objects fuel src visited path
      else ([], [])
    let r2 := checkDependenciesList sumConfigs objects fuel visited path rest
    (r1.1 ++ r2.1, r1.2 ++ r2.2)
termination_by (fuel, sources.length + 1)

end

/-- The creation-order loop of `_create_objects_from_config`: for each sum
name not yet created, run `check_dependencies` and append its result
entries not already scheduled. Returns `(creation_order, warnings)`. -/
def buildCreationOrder (sumConfigs : List (String × List String))
    (objects : List String) : List String × List (List String) :=
  sumConfigs.foldl
    (fun acc nc =>
      if nc.1 ∉ objects then
        let deps := checkDependencies sumConfigs objects (sumConfigs.length + 1) nc.1 [] []
        (deps.1.foldl (fun co d => if d ∈ co then co else co ++ [d]) acc.1,
         acc.2 ++ deps.2)
      else acc)
    ([], [])

/-- A config entry as partitioned by `_create_objects_from_config`: either
a non-sum generator (random/step/order — the variant does not affect
construction order) or a sum generator with its `source_objects`. -/
inductive ObjConfig where
  | nonSum
  | sum (source_objects : List String)
deriving DecidableEq

/-- A registry entry after construction: a created leaf generator, or a
created sum generator with its sources and whether `first_update()` has
been invoked on it. (The value-level behaviour of `first_update` is
modelled by `SumDataGenerator.update`; here only its invocation is
tracked.) -/
inductive RegEntry where
  | leaf
  | sumAgg (sources : List String) (initialized : Bool)
deriving DecidableEq

/-- Result of `_create_objects_from_config`: the `name → generator`
mapping in insertion order, plus the cycle warnings printed. -/
structure BuiltRegistry where
  objects : List (String × RegEntry)
  warnings : List (List String)
deriving DecidableEq

/-- `DataObjectManager._create_objects_from_config`: partition the config
(dict order preserved), create every non-sum object, resolve the sum
creation order by `check_dependencies`, create the sums in that order,
then call `first_update()` on each created sum. -/
def createObjectsFromConfig (cfg : List (String × ObjConfig)) : BuiltRegistry :=
  let sum_configs := cfg.filterMap (fun nc =>
    match nc.2 with
    | ObjConfig.sum srcs => some (nc.1, srcs)
    | ObjConfig.nonSum => none)
  let non_sum_objects := cfg.filterMap (fun nc =>
    match nc.2 with
    | ObjConfig.nonSum => some nc.1
    | ObjConfig.sum _ => none)
  let objects₀ := non_sum_objects.map (fun n => (n, RegEntry.leaf))
  let co := buildCreationOrder sum_configs non_sum_objects
  let objects₁ := objects₀ ++ co.1.filterMap (fun n =>
    (sum_configs.lookup n).map (fun srcs => (n, RegEntry.sumAgg srcs false)))
  let objects₂ := objects₁.map (fun ne =>
    match ne.2 with
    | RegEntry.sumAgg srcs _ => (ne.1, RegEntry.sumAgg srcs true)
    | RegEntry.leaf => (ne.1, RegEntry.leaf))
  { objects := objects₂, warnings := co.2 }

/-- The C4 scenario: aggregates `X→[Y]`, `Y→[Z]`, `Z→[X]` forming a
cycle, plus one non-cyclic (non-sum) object `W`. -/
def cycleConfig : List (String × ObjConfig) :=
  [("W", ObjConfig.nonSum),
   ("X", ObjConfig.sum ["Y"]),
   ("Y", ObjConfig.sum ["Z"]),
   ("Z", ObjConfig.sum ["X"])]

example :
    buildCreationOrder [("X", ["Y"]), ("Y", ["Z"]), ("Z", ["X"])] ["W"] =
      (["Z", "Y", "X"],
       [["X", "Y", "Z", "X"], ["Y", "Z", "X", "Y"], ["Z", "X", "Y", "Z"]]) := by
  simp +decide [buildCreationOrder, checkDependencies, checkDependenciesList, List.lookup]

/-! ## Shared lemmas about the bounded history buffer -/

theorem pyTakeLast_suffix (l : List α) (k : ℕ) : pyTakeLast l k <:+ l := by
  unfold pyTakeLast
  split
  · exact List.suffix_refl l
  · exact List.drop_suffix _ l

theorem trimHistory_suffix (limit : ℕ) (h : List (DataPoint α)) :
    trimHistory limit h <:+ h := by
  unfold trimHistory
  split
  · exact pyTakeLast_suffix h limit
  · exact List.suffix_refl h

theorem trimHistory_length (limit : ℕ) (h : List (DataPoint α))
    (hlim : 0 < limit) (hlen : h.length ≤ limit + 1) :
    (trimHistory limit h).length ≤ limit := by
  unfold trimHistory pyTakeLast
  split
  · rw [if_neg (by omega)]
    rw [List.length_drop]
    omega
  · omega

theorem trimHistory_getLast? (limit : ℕ) (l : List (DataPoint α)) (a : DataPoint α) :
    (trimHistory limit (l ++ [a])).getLast? = some a := by
  unfold trimHistory pyTakeLast
  split
  · split
    · exact List.getLast?_concat l
    · rw [List.drop_append_of_le_length (by simp; omega)]
      exact List.getLast?_concat _
  · exact List.getLast?_concat l

theorem trimHistory_chain' {R : DataPoint α → DataPoint α → Prop} (limit : ℕ)
    (h : List (DataPoint α)) (hc : h.Chain' R) : (trimHistory limit h).Chain' R :=
  hc.suffix (trimHistory_suffix limit h)

theorem trimHistory_mem {limit : ℕ} {h : List (DataPoint α)} {p : DataPoint α}
    (hp : p ∈ trimHistory limit h) : p ∈ h :=
  (trimHistory_suffix limit h).subset hp

/-- The history invariant of the spec's data model, relative to a clock
bound `now`: bounded length, non-decreasing timestamps, and every
timestamp at most `now`. -/
def HistInv (limit : ℕ) (now : ℚ) (h : List (DataPoint α)) : Prop :=
  h.length ≤ limit ∧
    h.Chain' (fun a b => a.timestamp ≤ b.timestamp) ∧
    ∀ p ∈ h, p.timestamp ≤ now

theorem HistInv.nil (limit : ℕ) (now : ℚ) : HistInv limit now ([] : List (DataPoint α)) :=
  ⟨by simp, by simp, by simp⟩

theorem HistInv.mono {limit : ℕ} {now now' : ℚ} {h : List (DataPoint α)}
    (hinv : HistInv limit now h) (hle : now ≤ now') : HistInv limit now' h :=
  ⟨hinv.1, hinv.2.1, fun p hp => le_trans (hinv.2.2 p hp) hle⟩

/-- Appending one point stamped `now'` and trimming preserves the history
invariant, for any positive limit and any `now' ≥ now`. -/
theorem HistInv.append_trim {limit : ℕ} {now now' : ℚ} {h : List (DataPoint α)}
    (hinv : HistInv limit now h) (hlim : 0 < limit) (hle : now ≤ now') (v : α) :
    HistInv limit now' (trimHistory limit (h ++ [⟨v, now'⟩])) := by
  obtain ⟨h1, h2, h3⟩ := hinv
  refine ⟨?_, ?_, ?_⟩
  · exact trimHistory_length limit _ hlim (by simp; omega)
  · refine trimHistory_chain' limit _ ?_
    refine h2.append (List.chain'_singleton _) ?_
    intro x hx y hy
    simp only [List.head?_cons, Option.mem_def, Option.some.injEq] at hy
    subst hy
    exact le_trans (h3 x (List.mem_of_mem_getLast? hx)) hle
  · intro p hp
    rcases List.mem_append.mp (trimHistory_mem hp) with hp | hp
    · exact le_trans (h3 p hp) hle
    · simp only [List.mem_singleton] at hp
      subst hp
      exact le_refl _

/-! ## Iterated updates (any sequence of `update()` calls) -/

/-- A sequence of `RandomDataGenerator.update` calls: each step carries
the drawn `change` and the clock reading. -/
def RandomDataGenerator.run (g : RandomDataGenerator) (steps : List (ℚ × ℚ)) :
    RandomDataGenerator :=
  steps.foldl (fun s p => s.update p.1 p.2) g

/-- A sequence of `StepDataGenerator.update` calls at the given clock
readings. -/
def StepDataGenerator.run (g : StepDataGenerator) (times : List ℚ) : StepDataGenerator :=
  times.foldl (fun s t => s.update t) g

/-- One `OrderDataGenerator.update` call's inputs: the three random draws,
the formatted time string and the clock reading. -/
structure OrderStep where
  id_increment : ℤ
  otime : String
  location : String
  power_demand : ℤ
  now : ℚ

/-- A sequence of `OrderDataGenerator.update` calls. -/
def OrderDataGenerator.run (g : OrderDataGenerator) (steps : List OrderStep) :
    OrderDataGenerator :=
  steps.foldl (fun s st => s.update st.id_increment st.otime st.location st.power_demand st.now) g

/-- One `SumDataGenerator.update` call's inputs: the registry view and the
clock reading. -/
structure SumStep where
  env : String → SourceRead
  now : ℚ

/-- A sequence of `SumDataGenerator.update` calls. -/
def SumDataGenerator.run (g : SumDataGenerator) (steps : List SumStep) : SumDataGenerator :=
  steps.foldl (fun s st => s.update st.env st.now) g

/-! ### One-step preservation of the history invariant -/

theorem random_update_histInv {g : RandomDataGenerator} {t u : ℚ}
    (hlim : 0 < g.history_limit) (hinv : HistInv g.history_limit t g.history)
    (hle : t ≤ u) (change : ℚ) :
    (g.update change u).history_limit = g.history_limit ∧
      HistInv g.history_limit u (g.update change u).history := by
  refine ⟨rfl, ?_⟩
  exact hinv.append_trim hlim hle _

theorem StepDataGenerator.advance_fields (g : StepDataGenerator) (now : ℚ) :
    (g.advance now).history = g.history ∧
      (g.advance now).history_limit = g.history_limit ∧
      (g.advance now).values = g.values ∧
      (g.advance now).dwell_time = g.dwell_time ∧
      (g.advance now).loop = g.loop := by
  unfold StepDataGenerator.advance
  split <;> exact ⟨rfl, rfl, rfl, rfl, rfl⟩

theorem StepDataGenerator.record_histInv {g : StepDataGenerator} {t u : ℚ}
    (hlim : 0 < g.history_limit) (hinv : HistInv g.history_limit t g.history)
    (hle : t ≤ u) :
    (g.record u).history_limit = g.history_limit ∧
      HistInv g.history_limit u (g.record u).history := by
  unfold StepDataGenerator.record
  split
  · exact ⟨rfl, hinv.append_trim hlim hle _⟩
  · exact ⟨rfl, hinv.mono hle⟩

theorem step_update_histInv {g : StepDataGenerator} {t u : ℚ}
    (hlim : 0 < g.history_limit) (hinv : HistInv g.history_limit t g.history)
    (hle : t ≤ u) :
    (g.update u).history_limit = g.history_limit ∧
      HistInv g.history_limit u (g.update u).history := by
  unfold StepDataGenerator.update
  split
  · exact ⟨rfl, hinv.mono hle⟩
  · have ha := StepDataGenerator.advance_fields g u
    have hr := StepDataGenerator.record_histInv (g := g.advance u) (t := t) (u := u)
      (by rw [ha.2.1]; exact hlim) (by rw [ha.2.1, ha.1]; exact hinv) hle
    rw [ha.2.1] at hr
    exact hr

theorem order_update_histInv {g : OrderDataGenerator} {t u : ℚ}
    (hlim : 0 < g.history_limit) (hinv : HistInv g.history_limit t g.history)
    (hle : t ≤ u) (id_increment : ℤ) (otime location : String) (power_demand : ℤ) :
    (g.update id_increment otime location power_demand u).history_limit = g.history_limit ∧
      HistInv g.history_limit u (g.update id_increment otime location power_demand u).history := by
  refine ⟨rfl, ?_⟩
  exact hinv.append_trim hlim hle _

theorem sum_update_histInv {g : SumDataGenerator} {t u : ℚ}
    (hlim : 0 < g.history_limit) (hinv : HistInv g.history_limit t g.history)
    (hle : t ≤ u) (env : String → SourceRead) :
    (g.update env u).history_limit = g.history_limit ∧
      HistInv g.history_limit u (g.update env u).history := by
  unfold SumDataGenerator.update
  split
  · exact ⟨rfl, hinv.mono hle⟩
  split
  · exact ⟨rfl, hinv.append_trim hlim hle _⟩
  · exact ⟨rfl, hinv.mono hle⟩

/-! ### The invariant along any sequence of updates -/

theorem random_run_histInv {g : RandomDataGenerator} {t : ℚ}
    (steps : List (ℚ × ℚ))
    (hlim : 0 < g.history_limit) (hinv : HistInv g.history_limit t g.history)
    (hts : List.Chain' (· ≤ ·) (t :: steps.map Prod.snd)) :
    (g.run steps).history_limit = g.history_limit ∧
      ∃ t, HistInv g.history_limit t (g.run steps).history := by
  induction steps generalizing g t with
  | nil => exact ⟨rfl, t, hinv⟩
  | cons p rest ih =>
    rw [List.map_cons, List.chain'_cons] at hts
    have hstep := random_update_histInv hlim hinv hts.1 p.1
    have := ih (g := g.update p.1 p.2) (t := p.2)
      (by rw [hstep.1]; exact hlim) (by rw [hstep.1]; exact hstep.2) hts.2
    rw [hstep.1] at this
    exact this

theorem step_run_histInv {g : StepDataGenerator} {t : ℚ}
    (times : List ℚ)
    (hlim : 0 < g.history_limit) (hinv : HistInv g.history_limit t g.history)
    (hts : List.Chain' (· ≤ ·) (t :: times)) :
    (g.run times).history_limit = g.history_limit ∧
      ∃ t, HistInv g.history_limit t (g.run times).history := by
  induction times generalizing g t with
  | nil => exact ⟨rfl, t, hinv⟩
  | cons p rest ih =>
    rw [List.chain'_cons] at hts
    have hstep := step_update_histInv hlim hinv hts.1
    have := ih (g := g.update p) (t := p)
      (by rw [hstep.1]; exact hlim) (by rw [hstep.1]; exact hstep.2) hts.2
    rw [hstep.1] at this
    exact this

theorem order_run_histInv {g : OrderDataGenerator} {t : ℚ}
    (steps : List OrderStep)
    (hlim : 0 < g.history_limit) (hinv : HistInv g.history_limit t g.history)
    (hts : List.Chain' (· ≤ ·) (t :: steps.map OrderStep.now)) :
    (g.run steps).history_limit = g.history_limit ∧
      ∃ t, HistInv g.history_limit t (g.run steps).history := by
  induction steps generalizing g t with
  | nil => exact ⟨rfl, t, hinv⟩
  | cons p rest ih =>
    rw [List.map_cons, List.chain'_cons] at hts
    have hstep := order_update_histInv hlim hinv hts.1
      p.id_increment p.otime p.location p.power_demand
    have := ih (g := g.update p.id_increment p.otime p.location p.power_demand p.now)
      (t := p.now)
      (by rw [hstep.1]; exact hlim) (by rw [hstep.1]; exact hstep.2) hts.2
    rw [hstep.1] at this
    exact this

theorem sum_run_histInv {g : SumDataGenerator} {t : ℚ}
    (steps : List SumStep)
    (hlim : 0 < g.history_limit) (hinv : HistInv g.history_limit t g.history)
    (hts : List.Chain' (· ≤ ·) (t :: steps.map SumStep.now)) :
    (g.run steps).history_limit = g.history_limit ∧
      ∃ t, HistInv g.history_limit t (g.run steps).history := by
  induction steps generalizing g t with
  | nil => exact ⟨rfl, t, hinv⟩
  | cons p rest ih =>
    rw [List.map_cons, List.chain'_cons] at hts
    have hstep := sum_update_histInv hlim hinv hts.1 p.env
    have := ih (g := g.update p.env p.now) (t := p.now)
      (by rw [hstep.1]; exact hlim) (by rw [hstep.1]; exact hstep.2) hts.2
    rw [hstep.1] at this
    exact this

/-! ## Claim C1 -/

/-- C1: For every generator variant (random-walk, step-sequence,
order-event, sum-aggregate), after any sequence of `update()` calls
(starting from the freshly constructed generator, whose constructor
performs the first update for the non-aggregate variants), the length of
`history` is at most `history_limit`, and the history's `DataPoint`
timestamps are non-decreasing in insertion order. Hypotheses: the
configured limit is positive (the data model requires
`historyLimit: integer > 0`) and the wall-clock readings passed to the
updates are non-decreasing. -/
theorem C1_history_invariant :
    (∀ (base : ℚ) (upd : ℚ × ℚ) (lo hi : ℚ) (limit : ℕ) (c₀ t₀ : ℚ)
        (steps : List (ℚ × ℚ)),
        0 < limit →
        List.Chain' (· ≤ ·) (t₀ :: steps.map Prod.snd) →
        ((RandomDataGenerator.init base upd lo hi limit c₀ t₀).run steps).history.length ≤
            limit ∧
          ((RandomDataGenerator.init base upd lo hi limit c₀ t₀).run steps).history.Chain'
            (fun a b => a.timestamp ≤ b.timestamp)) ∧
    (∀ (values : List ℚ) (dwell : ℚ) (loop : Bool) (limit : ℕ) (t_init t₀ : ℚ)
        (times : List ℚ),
        0 < limit →
        List.Chain' (· ≤ ·) (t₀ :: times) →
        ((StepDataGenerator.init values dwell loop limit t_init t₀).run times).history.length ≤
            limit ∧
          ((StepDataGenerator.init values dwell loop limit t_init t₀).run times).history.Chain'
            (fun a b => a.timestamp ≤ b.timestamp)) ∧
    (∀ (baseId : ℤ) (incRange : ℤ × ℤ) (locs : List String) (pdRange : ℤ × ℤ)
        (unit : String) (limit : ℕ) (inc₀ : ℤ) (ot₀ loc₀ : String) (pd₀ : ℤ) (t₀ : ℚ)
        (steps : List OrderStep),
        0 < limit →
        List.Chain' (· ≤ ·) (t₀ :: steps.map OrderStep.now) →
        ((OrderDataGenerator.init baseId incRange locs pdRange unit limit
              inc₀ ot₀ loc₀ pd₀ t₀).run steps).history.length ≤ limit ∧
          ((OrderDataGenerator.init baseId incRange locs pdRange unit limit
              inc₀ ot₀ loc₀ pd₀ t₀).run steps).history.Chain'
            (fun a b => a.timestamp ≤ b.timestamp)) ∧
    (∀ (sources : List String) (mgr : Bool) (limit : ℕ) (t₀ : ℚ) (steps : List SumStep),
        0 < limit →
        List.Chain' (· ≤ ·) (t₀ :: steps.map SumStep.now) →
        ((SumDataGenerator.init sources mgr limit).run steps).history.length ≤ limit ∧
          ((SumDataGenerator.init sources mgr limit).run steps).history.Chain'
            (fun a b => a.timestamp ≤ b.timestamp)) := by
  refine ⟨?_, ?_, ?_, ?_⟩
  · intro base upd lo hi limit c₀ t₀ steps hlim hts
    have h0 :=
      (random_update_histInv
        (g := { base_value := base, update_range := upd, min_value := lo, max_value := hi
                history_limit := limit, current_value := 0, history := [] })
        (t := t₀) (u := t₀) hlim (HistInv.nil limit t₀) (le_refl t₀) c₀).2
    obtain ⟨-, t, hinv⟩ := random_run_histInv steps hlim h0 hts
    exact ⟨hinv.1, hinv.2.1⟩
  · intro values dwell loop limit t_init t₀ times hlim hts
    have h0 :=
      step_update_histInv
        (g := { values, dwell_time := dwell, loop, current_index := 0
                last_change_time := t_init, history_limit := limit
                current_value := 0, history := [] })
        (t := t₀) (u := t₀) hlim (HistInv.nil limit t₀) (le_refl t₀)
    obtain ⟨-, t, hinv⟩ :=
      step_run_histInv
        (g := StepDataGenerator.init values dwell loop limit t_init t₀) (t := t₀)
        times (by exact h0.1 ▸ hlim) (by exact h0.1 ▸ h0.2) hts
    rw [show (StepDataGenerator.init values dwell loop limit t_init t₀).history_limit = limit
          from h0.1] at hinv
    exact ⟨hinv.1, hinv.2.1⟩
  · intro baseId incRange locs pdRange unit limit inc₀ ot₀ loc₀ pd₀ t₀ steps hlim hts
    have h0 :=
      (order_update_histInv
        (g := { order_id_base := baseId, current_order_id := baseId
                id_increment_range := incRange, locations := locs
                power_demand_range := pdRange, unit, history_limit := limit, history := [] })
        (t := t₀) (u := t₀) hlim (HistInv.nil limit t₀) (le_refl t₀)
        inc₀ ot₀ loc₀ pd₀).2
    obtain ⟨-, t, hinv⟩ := order_run_histInv steps hlim h0 hts
    exact ⟨hinv.1, hinv.2.1⟩
  · intro sources mgr limit t₀ steps hlim hts
    obtain ⟨-, t, hinv⟩ :=
      sum_run_histInv (g := SumDataGenerator.init sources mgr limit)
        steps hlim (HistInv.nil limit t₀) hts
    exact ⟨hinv.1, hinv.2.1⟩

/-- Witness for C1 at concrete inputs: a limit of 3, four updates, clocks
0,1,2,3,4 (so the random generator's buffer overflows and is trimmed). -/
theorem C1_history_invariant_witness :
    (((RandomDataGenerator.init 0 (-1, 1) (-5) 5 3 1 0).run
        [(1, 1), (1, 2), (2, 3), (1, 4)]).history.length ≤ 3 ∧
      ((RandomDataGenerator.init 0 (-1, 1) (-5) 5 3 1 0).run
        [(1, 1), (1, 2), (2, 3), (1, 4)]).history.Chain'
        (fun a b => a.timestamp ≤ b.timestamp)) ∧
    (((StepDataGenerator.init [1, 2, 3] 0 true 3 0 0).run [1, 2, 3, 4]).history.length ≤ 3 ∧
      ((StepDataGenerator.init [1, 2, 3] 0 true 3 0 0).run [1, 2, 3, 4]).history.Chain'
        (fun a b => a.timestamp ≤ b.timestamp)) ∧
    (((OrderDataGenerator.init 1000 (1, 10) ["bj"] (100, 1000) "MW" 3
          2 "t0" "bj" 500 0).run
        [⟨3, "t1", "bj", 400, 1⟩, ⟨1, "t2", "bj", 300, 2⟩, ⟨2, "t3", "bj", 200, 3⟩,
         ⟨5, "t4", "bj", 100, 4⟩]).history.length ≤ 3 ∧
      ((OrderDataGenerator.init 1000 (1, 10) ["bj"] (100, 1000) "MW" 3
          2 "t0" "bj" 500 0).run
        [⟨3, "t1", "bj", 400, 1⟩, ⟨1, "t2", "bj", 300, 2⟩, ⟨2, "t3", "bj", 200, 3⟩,
         ⟨5, "t4", "bj", 100, 4⟩]).history.Chain'
        (fun a b => a.timestamp ≤ b.timestamp)) ∧
    (((SumDataGenerator.init ["a", "b"] true 3).run
        [⟨fun _ => SourceRead.numeric 1, 1⟩, ⟨fun _ => SourceRead.numeric 2, 2⟩,
         ⟨fun _ => SourceRead.notFound, 3⟩, ⟨fun _ => SourceRead.numeric 3, 4⟩]).history.length ≤
        3 ∧
      ((SumDataGenerator.init ["a", "b"] true 3).run
        [⟨fun _ => SourceRead.numeric 1, 1⟩, ⟨fun _ => SourceRead.numeric 2, 2⟩,
         ⟨fun _ => SourceRead.notFound, 3⟩, ⟨fun _ => SourceRead.numeric 3, 4⟩]).history.Chain'
        (fun a b => a.timestamp ≤ b.timestamp)) := by
  refine ⟨?_, ?_, ?_, ?_⟩
  · exact C1_history_invariant.1 0 (-1, 1) (-5) 5 3 1 0 [(1, 1), (1, 2), (2, 3), (1, 4)]
      (by decide) (by norm_num [List.chain'_cons])
  · exact C1_history_invariant.2.1 [1, 2, 3] 0 true 3 0 0 [1, 2, 3, 4] (by decide)
      (by norm_num [List.chain'_cons])
  · exact C1_history_invariant.2.2.1 1000 (1, 10) ["bj"] (100, 1000) "MW" 3
      2 "t0" "bj" 500 0
      [⟨3, "t1", "bj", 400, 1⟩, ⟨1, "t2", "bj", 300, 2⟩, ⟨2, "t3", "bj", 200, 3⟩,
       ⟨5, "t4", "bj", 100, 4⟩] (by decide) (by norm_num [List.chain'_cons])
  · exact C1_history_invariant.2.2.2 ["a", "b"] true 3 0
      [⟨fun _ => SourceRead.numeric 1, 1⟩, ⟨fun _ => SourceRead.numeric 2, 2⟩,
       ⟨fun _ => SourceRead.notFound, 3⟩, ⟨fun _ => SourceRead.numeric 3, 4⟩]
      (by decide) (by norm_num [List.chain'_cons])

/-! ## Claim C2 -/

/-- Modelled from the spec's words: `clamp(x, lo, hi)` restricts `x` to
the interval `[lo, hi]`. The code writes it as
`max(self.min_value, min(self.max_value, new_value))`. -/
def clamp (x lo hi : ℚ) : ℚ :=
  if x < lo then lo else if hi < x then hi else x

theorem max_min_eq_clamp {lo hi : ℚ} (x : ℚ) (h : lo ≤ hi) :
    max lo (min hi x) = clamp x lo hi := by
  unfold clamp
  split
  · rename_i h1
    rw [min_eq_right (le_of_lt (lt_of_lt_of_le h1 h)), max_eq_left (le_of_lt h1)]
  split
  · rename_i h2
    rw [min_eq_left (le_of_lt h2), max_eq_right h]
  · rename_i h1 h2
    rw [min_eq_right (not_lt.mp h2), max_eq_right (not_lt.mp h1)]

theorem clamp_bounds {lo hi : ℚ} (x : ℚ) (h : lo ≤ hi) :
    lo ≤ clamp x lo hi ∧ clamp x lo hi ≤ hi := by
  unfold clamp
  split
  · exact ⟨le_refl lo, h⟩
  split
  · exact ⟨h, le_refl hi⟩
  · rename_i h1 h2
    exact ⟨not_lt.mp h1, not_lt.mp h2⟩

/-- C2: for a random-walk generator with `min_value ≤ max_value`, every
`update()` records exactly `clamp(previous + change, min_value,
max_value)` — where `previous` is `base_value` when history is empty and
`current_value` otherwise — as the new last history point and as
`current_value`, and that value lies within the configured bounds even
when the unclamped `previous + change` does not. -/
theorem C2_random_walk_clamped (g : RandomDataGenerator) (change now : ℚ)
    (hminmax : g.min_value ≤ g.max_value) :
    (g.update change now).history.getLast? =
      some ⟨clamp ((if g.history = [] then g.base_value else g.current_value) + change)
              g.min_value g.max_value, now⟩ ∧
    (g.update change now).current_value =
      clamp ((if g.history = [] then g.base_value else g.current_value) + change)
        g.min_value g.max_value ∧
    g.min_value ≤ (g.update change now).current_value ∧
    (g.update change now).current_value ≤ g.max_value := by
  have hcv : (g.update change now).current_value =
      clamp ((if g.history = [] then g.base_value else g.current_value) + change)
        g.min_value g.max_value := by
    show max g.min_value (min g.max_value _) = _
    exact max_min_eq_clamp _ hminmax
  refine ⟨?_, hcv, ?_, ?_⟩
  · show (trimHistory g.history_limit (g.history ++ [⟨_, now⟩])).getLast? = _
    rw [trimHistory_getLast?]
    rw [max_min_eq_clamp _ hminmax]
  · rw [hcv]
    exact (clamp_bounds _ hminmax).1
  · rw [hcv]
    exact (clamp_bounds _ hminmax).2

/-- Witness for C2: bounds `[0, 5]`, previous value `4` (history
non-empty), delta `100`: the unclamped value `104` violates the bounds
and the recorded value is the clamped `5`. -/
theorem C2_random_walk_clamped_witness :
    (0 : ℚ) ≤ 5 ∧
      (({ base_value := 1, update_range := (-1, 1), min_value := 0, max_value := 5
          history_limit := 200, current_value := 4
          history := [⟨4, 0⟩] } : RandomDataGenerator).update 100 1).history.getLast? =
        some ⟨5, 1⟩ := by
  constructor
  · decide
  · have h := (C2_random_walk_clamped
      { base_value := 1, update_range := (-1, 1), min_value := 0, max_value := 5
        history_limit := 200, current_value := 4, history := [⟨4, 0⟩] }
      100 1 (by decide)).1
    rw [h]
    norm_num [clamp]

/-! ## Claim C3 -/

/-- The C3 example registry view: source `A` reads `10`, source `B` is
non-numeric, source `C` reads `5`, everything else is absent. -/
def envSumExample : String → SourceRead := fun n =>
  if n = "A" then SourceRead.numeric 10
  else if n = "B" then SourceRead.nonNumeric
  else if n = "C" then SourceRead.numeric 5
  else SourceRead.notFound

/-- A registry view in which no source yields a number. -/
def envSumEmpty : String → SourceRead := fun n =>
  if n = "A" then SourceRead.nonNumeric else SourceRead.notFound

theorem sumSources_eq (env : String → SourceRead) (names : List String) :
    sumSources env names =
      ((names.filterMap (fun n => (env n).contribution)).sum,
       (names.filterMap (fun n => (env n).contribution)).length) := by
  suffices h : ∀ acc : ℚ × ℕ,
      names.foldl
        (fun acc name =>
          match (env name).contribution with
          | some v => (acc.1 + v, acc.2 + 1)
          | none => acc) acc =
      (acc.1 + (names.filterMap (fun n => (env n).contribution)).sum,
       acc.2 + (names.filterMap (fun n => (env n).contribution)).length) by
    have := h (0, 0)
    simpa [sumSources] using this
  induction names with
  | nil => intro acc; simp
  | cons n rest ih =>
    intro acc
    rw [List.foldl_cons, List.filterMap_cons]
    cases h : (env n).contribution with
    | none =>
      exact ih acc
    | some v =>
      show List.foldl _ (acc.1 + v, acc.2 + 1) rest =
        (acc.1 + (v + (List.filterMap (fun n => (env n).contribution) rest).sum),
         acc.2 + ((List.filterMap (fun n => (env n).contribution) rest).length + 1))
      rw [ih (acc.1 + v, acc.2 + 1)]
      refine Prod.ext ?_ ?_
      · show acc.1 + v + _ = acc.1 + (v + _)
        ring
      · show acc.2 + 1 + _ = acc.2 + (_ + 1)
        omega

/-- C3: in `SumDataGenerator.update` the accumulated total is the sum of
exactly the sources that resolve to a numeric value (every lookup
failure, absent value or non-numeric value is skipped without aborting
the loop), the counted-sources tally is their number, and when zero
sources contribute the state — `current_value` and `history` — is
returned unchanged; when at least one contributes, precisely the total
is recorded as a new `DataPoint`. -/
theorem C3_sum_skip_and_zero (g : SumDataGenerator) (env : String → SourceRead) (now : ℚ)
    (hmgr : g.has_manager = true) :
    (sumSources env g.source_objects =
      ((g.source_objects.filterMap (fun n => (env n).contribution)).sum,
       (g.source_objects.filterMap (fun n => (env n).contribution)).length)) ∧
    (g.source_objects.filterMap (fun n => (env n).contribution) ≠ [] →
      (g.update env now).current_value =
          (g.source_objects.filterMap (fun n => (env n).contribution)).sum ∧
        (g.update env now).history =
          trimHistory g.history_limit
            (g.history ++
              [⟨(g.source_objects.filterMap (fun n => (env n).contribution)).sum, now⟩])) ∧
    (g.source_objects.filterMap (fun n => (env n).contribution) = [] →
      g.update env now = g) := by
  have hs := sumSources_eq env g.source_objects
  refine ⟨hs, ?_, ?_⟩
  · intro hne
    have hsrc : g.source_objects ≠ [] := by
      intro h0
      rw [h0] at hne
      simp at hne
    unfold SumDataGenerator.update
    rw [if_neg (by simp [hmgr, hsrc])]
    rw [if_pos (by rw [hs]; simpa using List.length_pos.mpr hne)]
    constructor
    · show (sumSources env g.source_objects).1 = _
      rw [hs]
    · show trimHistory _ (g.history ++ [⟨(sumSources env g.source_objects).1, now⟩]) = _
      rw [hs]
  · intro hemp
    unfold SumDataGenerator.update
    by_cases hsrc : g.source_objects = []
    · rw [if_pos (Or.inr hsrc)]
    · rw [if_neg (by simp [hmgr, hsrc])]
      rw [if_neg (by rw [hs, hemp]; simp)]

/-- Witness for C3: sources `A=10`, `B` non-numeric, `C=5` give total 15
with 2 counted sources and the point `⟨15, 7⟩` appended; under a view
with no numeric source the update leaves the generator unchanged. -/
theorem C3_sum_skip_and_zero_witness :
    (SumDataGenerator.init ["A", "B", "C"] true 200).has_manager = true ∧
    sumSources envSumExample ["A", "B", "C"] = (15, 2) ∧
    ((SumDataGenerator.init ["A", "B", "C"] true 200).update envSumExample 7).current_value =
      15 ∧
    ((SumDataGenerator.init ["A", "B", "C"] true 200).update envSumExample 7).history =
      [⟨15, 7⟩] ∧
    (SumDataGenerator.init ["A", "B"] true 200).update envSumEmpty 3 =
      SumDataGenerator.init ["A", "B"] true 200 := by
  have h1 := C3_sum_skip_and_zero (SumDataGenerator.init ["A", "B", "C"] true 200)
    envSumExample 7 rfl
  have h2 := C3_sum_skip_and_zero (SumDataGenerator.init ["A", "B"] true 200)
    envSumEmpty 3 rfl
  rw [show (SumDataGenerator.init ["A", "B", "C"] true 200).source_objects = ["A", "B", "C"]
    from rfl] at h1
  rw [show (SumDataGenerator.init ["A", "B"] true 200).source_objects = ["A", "B"]
    from rfl] at h2
  have hfm : (["A", "B", "C"].filterMap (fun n => (envSumExample n).contribution)) =
      [10, 5] := by
    decide
  have hfm2 : (["A", "B"].filterMap (fun n => (envSumEmpty n).contribution)) = [] := by
    decide
  refine ⟨rfl, ?_, ?_, ?_, ?_⟩
  · rw [h1.1, hfm]
    norm_num [Prod.ext_iff]
  · rw [(h1.2.1 (by rw [hfm]; decide)).1, hfm]
    norm_num
  · rw [(h1.2.1 (by rw [hfm]; decide)).2, hfm]
    norm_num [SumDataGenerator.init, trimHistory, pyTakeLast]
  · exact h2.2.2 hfm2

/-! ## Claim C4 -/

/-- C4 counterexample: on the cyclic configuration `X→[Y]`, `Y→[Z]`,
`Z→[X]` (plus the non-cyclic `W`), it is NOT the case that at least one
of the three cyclic aggregates is dropped from the creation list: all of
`X`, `Y`, `Z` end up created in the registry. -/
theorem C4_counterexample :
    ¬ ("X" ∉ (createObjectsFromConfig cycleConfig).objects.map Prod.fst ∨
       "Y" ∉ (createObjectsFromConfig cycleConfig).objects.map Prod.fst ∨
       "Z" ∉ (createObjectsFromConfig cycleConfig).objects.map Prod.fst) := by
  simp +decide [createObjectsFromConfig, buildCreationOrder, checkDependencies,
    checkDependenciesList, cycleConfig, List.lookup]

/-- C4 amended: on the cyclic configuration, registry construction
completes, the cycle is reported (three warnings, one per traversal
entry point), but no aggregate is dropped: all three cyclic aggregates
are created (in reverse traversal order `Z`, `Y`, `X`) and initialized,
alongside the non-cyclic `W`. -/
theorem C4_cycle_degraded_construction :
    createObjectsFromConfig cycleConfig =
      { objects := [("W", RegEntry.leaf), ("Z", RegEntry.sumAgg ["X"] true),
                    ("Y", RegEntry.sumAgg ["Z"] true), ("X", RegEntry.sumAgg ["Y"] true)]
        warnings := [["X", "Y", "Z", "X"], ["Y", "Z", "X", "Y"], ["Z", "X", "Y", "Z"]] } ∧
    (createObjectsFromConfig cycleConfig).warnings ≠ [] := by
  constructor
  · simp +decide [createObjectsFromConfig, buildCreationOrder, checkDependencies,
      checkDependenciesList, cycleConfig, List.lookup, BuiltRegistry.mk.injEq]
  · simp +decide [createObjectsFromConfig, buildCreationOrder, checkDependencies,
      checkDependenciesList, cycleConfig, List.lookup]

/-! ## Claim C5 -/

/-- C5 counterexample: with `values=[1,2,3]`, `dwell_time=0`,
`loop=false`, constructed at time 0 and updated at times 1, 2, 3 (three
explicit `update()` calls with elapsing time), the recorded value
sequence is `[2, 3]`, not `[1, 2, 3]`: the constructor's own update
already advances the index past the first value before anything is
recorded. -/
theorem C5_counterexample :
    ((StepDataGenerator.init [1, 2, 3] 0 false 200 0 0).run [1, 2, 3]).history.map
        DataPoint.value = [2, 3] ∧
      ¬ ((StepDataGenerator.init [1, 2, 3] 0 false 200 0 0).run [1, 2, 3]).history.map
          DataPoint.value = [1, 2, 3] := by
  with_unfolding_all decide

/-- At the end of the sequence (`current_index = 2` for `values =
[1,2,3]`, `loop = false`) with the last value already recorded, the
index-advance phase holds the index at 2. -/
theorem StepDataGenerator.advance_at_end (g : StepDataGenerator) (now : ℚ)
    (hvals : g.values = [1, 2, 3]) (hloop : g.loop = false) (hidx : g.current_index = 2) :
    (g.advance now).current_index = 2 := by
  unfold StepDataGenerator.advance
  split
  · show (if g.current_index < g.values.length - 1 then g.current_index + 1
        else if g.loop then 0 else g.current_index) = 2
    rw [hvals, hidx, hloop]
    norm_num
  · exact hidx

/-- When the value at the current index equals the last recorded value,
the dedup-append phase is the identity. -/
theorem StepDataGenerator.record_no_append (g : StepDataGenerator) (now : ℚ)
    (h : g.history.getLast?.map DataPoint.value = some (g.values.getD g.current_index 0)) :
    g.record now = g := by
  unfold StepDataGenerator.record
  rw [if_neg]
  push_neg
  refine ⟨?_, h⟩
  intro h0
  rw [h0] at h
  simp at h

/-- Once the terminal state (`index = 2`, last recorded value `3`) is
reached with `values = [1,2,3]`, `loop = false`, any further `update()`
leaves the history (and the terminal shape) unchanged — it only updates
`last_change_time`. -/
theorem StepDataGenerator.update_terminal (g : StepDataGenerator) (now : ℚ)
    (hvals : g.values = [1, 2, 3]) (hloop : g.loop = false) (hidx : g.current_index = 2)
    (hlast : g.history.getLast?.map DataPoint.value = some 3) :
    (g.update now).values = [1, 2, 3] ∧ (g.update now).loop = false ∧
      (g.update now).current_index = 2 ∧ (g.update now).history = g.history := by
  unfold StepDataGenerator.update
  rw [if_neg (by rw [hvals]; simp)]
  have ha := StepDataGenerator.advance_fields g now
  have hidx' := StepDataGenerator.advance_at_end g now hvals hloop hidx
  have hrec := StepDataGenerator.record_no_append (g.advance now) now
    (by rw [ha.1, hidx', ha.2.2.1, hvals, hlast]; rfl)
  rw [hrec]
  exact ⟨by rw [ha.2.2.1, hvals], by rw [ha.2.2.2.2, hloop], hidx', ha.1⟩

/-- In the terminal state, any sequence of further updates leaves the
history unchanged. -/
theorem StepDataGenerator.run_terminal (g : StepDataGenerator) (times : List ℚ)
    (hvals : g.values = [1, 2, 3]) (hloop : g.loop = false) (hidx : g.current_index = 2)
    (hlast : g.history.getLast?.map DataPoint.value = some 3) :
    (g.run times).history = g.history := by
  induction times generalizing g with
  | nil => rfl
  | cons t rest ih =>
    have hu := StepDataGenerator.update_terminal g t hvals hloop hidx hlast
    show ((g.update t).run rest).history = g.history
    rw [ih (g.update t) hu.1 hu.2.1 hu.2.2.1 (by rw [hu.2.2.2]; exact hlast), hu.2.2.2]

/-- C5 amended: with `values=[1,2,3]`, `dwellTime=0`, `loop=false` and
`historyLimit ≥ 2`, the constructor's own update (time `t₀`) already
advances the index and records `2`; after any further `update()` at a
time `t₁ ≥ t₀` followed by arbitrarily many further updates, the
recorded history value sequence is exactly `2, 3` — the value `1` is
never recorded — and the last recorded value stays `3` (index held at
the end, no wrap). -/
theorem C5_step_sequence_records_2_3 (limit : ℕ) (t₀ t₁ : ℚ) (rest : List ℚ)
    (hlim : 2 ≤ limit) (h01 : t₀ ≤ t₁) :
    ((StepDataGenerator.init [1, 2, 3] 0 false limit t₀ t₀).run (t₁ :: rest)).history.map
        DataPoint.value = [2, 3] ∧
      ((StepDataGenerator.init [1, 2, 3] 0 false limit t₀ t₀).run
          (t₁ :: rest)).history.getLast?.map DataPoint.value = some 3 := by
  have htrim1 : ¬ (1 > limit) := by omega
  have hg1 : StepDataGenerator.init [1, 2, 3] 0 false limit t₀ t₀ =
      { values := [1, 2, 3], dwell_time := 0, loop := false, current_index := 1
        last_change_time := t₀, history_limit := limit, current_value := 2
        history := [⟨2, t₀⟩] } := by
    simp [StepDataGenerator.init, StepDataGenerator.update, StepDataGenerator.advance,
      StepDataGenerator.record, trimHistory, pyTakeLast, htrim1]
  have htrim2 : ¬ (2 > limit) := by omega
  have hd : (0 : ℚ) ≤ t₁ - t₀ := by linarith
  have hg2 :
      ({ values := [1, 2, 3], dwell_time := 0, loop := false, current_index := 1
         last_change_time := t₀, history_limit := limit, current_value := 2
         history := [⟨2, t₀⟩] } : StepDataGenerator).update t₁ =
        { values := [1, 2, 3], dwell_time := 0, loop := false, current_index := 2
          last_change_time := t₁, history_limit := limit, current_value := 3
          history := [⟨2, t₀⟩, ⟨3, t₁⟩] } := by
    simp [StepDataGenerator.update, StepDataGenerator.advance,
      StepDataGenerator.record, trimHistory, pyTakeLast, htrim2, hd]
  have hrun : ((StepDataGenerator.init [1, 2, 3] 0 false limit t₀ t₀).run
      (t₁ :: rest)).history = [⟨2, t₀⟩, ⟨3, t₁⟩] := by
    show (((StepDataGenerator.init [1, 2, 3] 0 false limit t₀ t₀).update t₁).run
      rest).history = _
    rw [hg1, hg2]
    exact StepDataGenerator.run_terminal _ rest rfl rfl rfl rfl
  rw [hrun]
  constructor <;> rfl

/-- Witness for C5 amended: limit 200, construction at time 0, updates at
times 1, 2, 3. -/
theorem C5_step_sequence_records_2_3_witness :
    (2 ≤ 200 ∧ (0 : ℚ) ≤ 1) ∧
      ((StepDataGenerator.init [1, 2, 3] 0 false 200 0 0).run [1, 2, 3]).history.map
          DataPoint.value = [2, 3] ∧
      ((StepDataGenerator.init [1, 2, 3] 0 false 200 0 0).run
          [1, 2, 3]).history.getLast?.map DataPoint.value = some 3 :=
  ⟨⟨by norm_num, by norm_num⟩,
    C5_step_sequence_records_2_3 200 0 1 [2, 3] (by norm_num) (by norm_num)⟩

/-! ## Claim C6 -/

/-- The dedup-append phase preserves "consecutive recorded values
differ": the append happens only when the new value differs from the
last recorded one. -/
theorem StepDataGenerator.record_dedup (g : StepDataGenerator) (now : ℚ)
    (hc : g.history.Chain' (fun a b => a.value ≠ b.value)) :
    (g.record now).history.Chain' (fun a b => a.value ≠ b.value) := by
  unfold StepDataGenerator.record
  split
  · rename_i hcond
    refine trimHistory_chain' _ _ ?_
    refine hc.append (List.chain'_singleton _) ?_
    intro x hx y hy
    simp only [List.head?_cons, Option.mem_def, Option.some.injEq] at hy
    subst hy
    rcases hcond with h0 | hne
    · rw [h0] at hx
      simp at hx
    · intro heq
      apply hne
      rw [Option.mem_def] at hx
      rw [hx]
      simpa using heq
  · exact hc

theorem StepDataGenerator.update_dedup (g : StepDataGenerator) (now : ℚ)
    (hc : g.history.Chain' (fun a b => a.value ≠ b.value)) :
    (g.update now).history.Chain' (fun a b => a.value ≠ b.value) := by
  unfold StepDataGenerator.update
  split
  · exact hc
  · have ha := StepDataGenerator.advance_fields g now
    exact StepDataGenerator.record_dedup (g.advance now) now (by rw [ha.1]; exact hc)

theorem StepDataGenerator.run_dedup (g : StepDataGenerator) (times : List ℚ)
    (hc : g.history.Chain' (fun a b => a.value ≠ b.value)) :
    (g.run times).history.Chain' (fun a b => a.value ≠ b.value) := by
  induction times generalizing g with
  | nil => exact hc
  | cons t rest ih => exact ih (g.update t) (StepDataGenerator.update_dedup g t hc)

/-- C6: for every step-sequence generator, a point is appended only when
the computed value differs from the last recorded value, so along any
sequence of `update()` calls from construction any two consecutive
recorded history points have different values; and with an empty
configured `values` sequence, `update()` is a no-op. -/
theorem C6_step_dedup_and_empty_noop :
    (∀ (g : StepDataGenerator) (now : ℚ), g.values = [] → g.update now = g) ∧
    (∀ (values : List ℚ) (dwell : ℚ) (loop : Bool) (limit : ℕ) (t_init t₀ : ℚ)
        (times : List ℚ),
        ((StepDataGenerator.init values dwell loop limit t_init t₀).run times).history.Chain'
          (fun a b => a.value ≠ b.value)) := by
  constructor
  · intro g now h
    unfold StepDataGenerator.update
    rw [if_pos h]
  · intro values dwell loop limit t_init t₀ times
    refine StepDataGenerator.run_dedup _ times ?_
    exact StepDataGenerator.update_dedup _ t₀ (by simp)

/-- Witness for C6: an empty-`values` generator is left untouched by
`update()`, and a looping `[1,2]` generator polled five times from
construction has pairwise-distinct consecutive recorded values. -/
theorem C6_step_dedup_and_empty_noop_witness :
    (({ values := [], dwell_time := 1, loop := true, current_index := 0
        last_change_time := 0, history_limit := 200, current_value := 0
        history := [] } : StepDataGenerator).update 5 =
      { values := [], dwell_time := 1, loop := true, current_index := 0
        last_change_time := 0, history_limit := 200, current_value := 0
        history := [] }) ∧
    ((StepDataGenerator.init [1, 2] 0 true 200 0 0).run [1, 2, 3, 4, 5]).history.Chain'
      (fun a b => a.value ≠ b.value) :=
  ⟨C6_step_dedup_and_empty_noop.1 _ 5 rfl,
    C6_step_dedup_and_empty_noop.2 [1, 2] 0 true 200 0 0 [1, 2, 3, 4, 5]⟩

/-! ## Claim C7 -/

/-- C7 counterexample: with `id_increment_range = [0, 0]` the only legal
draw of `random.randint(0, 0)` is `0`, and an `update()` then leaves
`current_order_id` unchanged — `currentOrderId` is not strictly
increasing for every order-event generator. -/
theorem C7_counterexample :
    ¬ ((OrderDataGenerator.init 1000 (0, 0) ["bj"] (100, 1000) "" 20
          0 "t0" "bj" 100 0).current_order_id <
        ((OrderDataGenerator.init 1000 (0, 0) ["bj"] (100, 1000) "" 20
            0 "t0" "bj" 100 0).update 0 "t1" "bj" 100 1).current_order_id) := by
  with_unfolding_all decide

/-- Each `OrderDataGenerator.update` advances `current_order_id` by
exactly the drawn increment. -/
theorem OrderDataGenerator.update_order_id (g : OrderDataGenerator) (inc : ℤ)
    (ot loc : String) (pd : ℤ) (now : ℚ) :
    (g.update inc ot loc pd now).current_order_id = g.current_order_id + inc := rfl

theorem OrderDataGenerator.run_order_id_increasing (g : OrderDataGenerator)
    (steps : List OrderStep) (hpos : ∀ s ∈ steps, 1 ≤ s.id_increment) (hne : steps ≠ []) :
    g.current_order_id < (g.run steps).current_order_id := by
  induction steps generalizing g with
  | nil => exact absurd rfl hne
  | cons s rest ih =>
    have h1 : g.current_order_id <
        (g.update s.id_increment s.otime s.location s.power_demand s.now).current_order_id := by
      rw [OrderDataGenerator.update_order_id]
      have := hpos s (List.mem_cons_self s rest)
      omega
    cases rest with
    | nil => exact h1
    | cons s2 r2 =>
      refine lt_trans h1 (ih (g.update s.id_increment s.otime s.location s.power_demand s.now)
        (fun x hx => hpos x (List.mem_cons_of_mem s hx)) (by simp))

/-- C7 amended: `current_order_id` advances by exactly the drawn
increment, hence is strictly increasing across `update()` calls whenever
every drawn increment is positive (as guaranteed when the configured
lower bound of `id_increment_range` is ≥ 1, e.g. the default `[1, 10]`);
with `id_increment_range = [1, 1]` and `order_id_base = 1000`, after 3
updates (the constructor's plus two explicit ones) `current_order_id`
equals 1003. -/
theorem C7_order_id_increasing_when_positive :
    (∀ (g : OrderDataGenerator) (inc : ℤ) (ot loc : String) (pd : ℤ) (now : ℚ),
        1 ≤ inc → g.current_order_id < (g.update inc ot loc pd now).current_order_id) ∧
    (∀ (g : OrderDataGenerator) (steps : List OrderStep),
        (∀ s ∈ steps, 1 ≤ s.id_increment) → steps ≠ [] →
        g.current_order_id < (g.run steps).current_order_id) ∧
    ((OrderDataGenerator.init 1000 (1, 1) ["bj"] (100, 1000) "" 20 1 "t0" "bj" 100 0).run
        [⟨1, "t1", "bj", 100, 1⟩, ⟨1, "t2", "bj", 100, 2⟩]).current_order_id = 1003 := by
  refine ⟨?_, OrderDataGenerator.run_order_id_increasing, ?_⟩
  · intro g inc ot loc pd now hinc
    rw [OrderDataGenerator.update_order_id]
    omega
  · with_unfolding_all decide

/-- Witness for C7 amended: a single positive-increment update and a
two-step positive-increment run both strictly increase the id. -/
theorem C7_order_id_increasing_when_positive_witness :
    ((OrderDataGenerator.init 1000 (1, 10) ["bj"] (100, 1000) "" 20
        2 "t0" "bj" 100 0).current_order_id <
      ((OrderDataGenerator.init 1000 (1, 10) ["bj"] (100, 1000) "" 20
          2 "t0" "bj" 100 0).update 5 "t1" "bj" 100 1).current_order_id) ∧
    ((OrderDataGenerator.init 1000 (1, 10) ["bj"] (100, 1000) "" 20
        2 "t0" "bj" 100 0).current_order_id <
      ((OrderDataGenerator.init 1000 (1, 10) ["bj"] (100, 1000) "" 20
          2 "t0" "bj" 100 0).run
        [⟨3, "t1", "bj", 100, 1⟩, ⟨4, "t2", "bj", 100, 2⟩]).current_order_id) :=
  ⟨C7_order_id_increasing_when_positive.1 _ 5 "t1" "bj" 100 1 (by decide),
    C7_order_id_increasing_when_positive.2.1 _
      [⟨3, "t1", "bj", 100, 1⟩, ⟨4, "t2", "bj", 100, 2⟩]
      (by intro s hs; fin_cases hs <;> decide) (by simp)⟩

/-! ## Claim C8 -/

/-- C8 counterexample: for an order generator whose history holds 2
points, `get_history(-1)` does `history[-(-1):] = history[1:]` and
returns 1 point — a negative count does not return the full buffer. -/
theorem C8_counterexample :
    ((OrderDataGenerator.init 1000 (1, 1) ["bj"] (100, 1000) "MW" 20
          1 "t0" "bj" 100 0).update 1 "t1" "bj" 200 1).history.length = 2 ∧
      (((OrderDataGenerator.init 1000 (1, 1) ["bj"] (100, 1000) "MW" 20
            1 "t0" "bj" 100 0).update 1 "t1" "bj" 200 1).get_history
          (some (-1))).2.length = 1 ∧
      ¬ (((OrderDataGenerator.init 1000 (1, 1) ["bj"] (100, 1000) "MW" 20
            1 "t0" "bj" 100 0).update 1 "t1" "bj" 200 1).get_history
          (some (-1))).2.length =
        ((OrderDataGenerator.init 1000 (1, 1) ["bj"] (100, 1000) "MW" 20
            1 "t0" "bj" 100 0).update 1 "t1" "bj" 200 1).history.length := by
  with_unfolding_all decide

/-- Reduction of `get_history` at a present `count`. -/
theorem OrderDataGenerator.get_history_some (g : OrderDataGenerator) (c : ℤ) :
    (g.get_history (some c)).2 =
      (if (g.history.length : ℤ) ≤ c then g.history else pySliceNeg g.history c).map
        (fun p => (p.value.render g.unit, p.timestamp)) := rfl

/-- C8 amended: `get_history` has no side effect on the generator and
always returns a suffix of the stored history (rendered), hence in
chronological oldest-to-newest order; the full buffer is returned when
`count` is absent, ≥ the current length, or = 0; the most recent `count`
points are returned when `0 < count < length`; but a NEGATIVE count
returns `history[-count:]` — the suffix starting at index `|count|` —
rather than the full buffer. The API path for non-order generators
(`get_object_history`) does return the full buffer for any absent or
non-positive count, and the last `count` points for a positive count. -/
theorem C8_history_snapshot_cases (g : OrderDataGenerator) (count : Option ℤ) :
    (g.get_history count).1 = g ∧
    (∃ n, (g.get_history count).2 =
      (g.history.drop n).map (fun p => (p.value.render g.unit, p.timestamp))) ∧
    ((count = none ∨ ∃ c, count = some c ∧ ((g.history.length : ℤ) ≤ c ∨ c = 0)) →
      (g.get_history count).2 =
        g.history.map (fun p => (p.value.render g.unit, p.timestamp))) ∧
    (∀ c, count = some c → 0 < c → c < (g.history.length : ℤ) →
      (g.get_history count).2 =
        (g.history.drop (g.history.length - c.toNat)).map
          (fun p => (p.value.render g.unit, p.timestamp)) ∧
      (g.get_history count).2.length = c.toNat) ∧
    (∀ c, count = some c → c < 0 →
      (g.get_history count).2 =
        (g.history.drop (-c).toNat).map (fun p => (p.value.render g.unit, p.timestamp))) ∧
    (∀ (h : List (DataPoint ℚ)) (c : Option ℤ),
      (c = none ∨ ∃ x, c = some x ∧ x ≤ 0) → apiHistoryNonOrder h c = h) ∧
    (∀ (h : List (DataPoint ℚ)) (c : ℤ), 0 < c →
      apiHistoryNonOrder h (some c) = h.drop (h.length - c.toNat)) := by
  refine ⟨rfl, ?_, ?_, ?_, ?_, ?_, ?_⟩
  · cases count with
    | none => exact ⟨0, by rw [List.drop_zero]; rfl⟩
    | some c =>
      rw [OrderDataGenerator.get_history_some]
      by_cases hc : (g.history.length : ℤ) ≤ c
      · exact ⟨0, by rw [if_pos hc, List.drop_zero]⟩
      · rw [if_neg hc]
        unfold pySliceNeg
        by_cases hpos : 0 < c
        · exact ⟨g.history.length - c.toNat, by rw [if_pos hpos]⟩
        · exact ⟨(-c).toNat, by rw [if_neg hpos]⟩
  · intro hfull
    rcases hfull with h | ⟨c, hc, hbig | h0⟩
    · rw [h]
      rfl
    · rw [hc, OrderDataGenerator.get_history_some, if_pos hbig]
    · subst h0
      rw [hc, OrderDataGenerator.get_history_some]
      by_cases hlen : (g.history.length : ℤ) ≤ 0
      · rw [if_pos hlen]
      · rw [if_neg hlen]
        unfold pySliceNeg
        rw [if_neg (by omega)]
        simp
  · intro c hc hpos hlt
    subst hc
    rw [OrderDataGenerator.get_history_some, if_neg (by omega)]
    unfold pySliceNeg
    rw [if_pos hpos]
    refine ⟨rfl, ?_⟩
    rw [List.length_map, List.length_drop]
    omega
  · intro c hc hneg
    subst hc
    rw [OrderDataGenerator.get_history_some, if_neg (by omega)]
    unfold pySliceNeg
    rw [if_neg (by omega)]
  · intro h c hc
    rcases hc with hc | ⟨x, hx, hxle⟩
    · rw [hc]
      rfl
    · rw [hx]
      show (if 0 < x then pySliceNeg h x else h) = h
      rw [if_neg (by omega)]
  · intro h c hpos
    show (if 0 < c then pySliceNeg h c else h) = h.drop (h.length - c.toNat)
    rw [if_pos hpos]
    unfold pySliceNeg
    rw [if_pos hpos]

/-- Witness for C8 amended, on a 2-point order history: `count = -1`
yields the suffix from index 1; `count = 1` yields exactly 1 point;
absent count yields the full rendered buffer; the non-order API path
returns the full buffer for a negative count. -/
theorem C8_history_snapshot_cases_witness :
    (((OrderDataGenerator.init 1000 (1, 1) ["bj"] (100, 1000) "MW" 20
          1 "t0" "bj" 100 0).update 1 "t1" "bj" 200 1).get_history (some (-1))).2 =
      (((OrderDataGenerator.init 1000 (1, 1) ["bj"] (100, 1000) "MW" 20
          1 "t0" "bj" 100 0).update 1 "t1" "bj" 200 1).history.drop 1).map
        (fun p => (p.value.render ((OrderDataGenerator.init 1000 (1, 1) ["bj"] (100, 1000)
          "MW" 20 1 "t0" "bj" 100 0).update 1 "t1" "bj" 200 1).unit, p.timestamp)) ∧
    (((OrderDataGenerator.init 1000 (1, 1) ["bj"] (100, 1000) "MW" 20
          1 "t0" "bj" 100 0).update 1 "t1" "bj" 200 1).get_history (some 1)).2.length = 1 ∧
    (((OrderDataGenerator.init 1000 (1, 1) ["bj"] (100, 1000) "MW" 20
          1 "t0" "bj" 100 0).update 1 "t1" "bj" 200 1).get_history none).2 =
      ((OrderDataGenerator.init 1000 (1, 1) ["bj"] (100, 1000) "MW" 20
          1 "t0" "bj" 100 0).update 1 "t1" "bj" 200 1).history.map
        (fun p => (p.value.render ((OrderDataGenerator.init 1000 (1, 1) ["bj"] (100, 1000)
          "MW" 20 1 "t0" "bj" 100 0).update 1 "t1" "bj" 200 1).unit, p.timestamp)) ∧
    apiHistoryNonOrder [⟨1, 0⟩, ⟨2, 1⟩] (some (-3)) = [⟨1, 0⟩, ⟨2, 1⟩] := by
  refine ⟨?_, ?_, ?_, ?_⟩
  · exact (C8_history_snapshot_cases _ (some (-1))).2.2.2.2.1 (-1) rfl (by decide)
  · exact ((C8_history_snapshot_cases _ (some 1)).2.2.2.1 1 rfl (by decide)
      (by with_unfolding_all decide)).2
  · exact (C8_history_snapshot_cases _ none).2.2.1 (Or.inl rfl)
  · exact (C8_history_snapshot_cases
      (OrderDataGenerator.init 1000 (1, 1) ["bj"] (100, 1000) "MW" 20 1 "t0" "bj" 100 0)
      none).2.2.2.2.2.1 [⟨1, 0⟩, ⟨2, 1⟩] (some (-3)) (Or.inr ⟨-3, rfl, by decide⟩)

/-! ## Claim C9 -/

theorem pySliceNeg_subset (l : List α) (c : ℤ) : pySliceNeg l c ⊆ l := by
  unfold pySliceNeg
  split
  · exact List.drop_subset _ _
  · exact List.drop_subset _ _

/-- C9: for an order generator with a non-empty configured unit, the
snapshot and history accessors return copies in which `power_demand` is
rendered as `"<value> (<unit>)"`, while the stored records keep the
numeric `power_demand`: the accessors return the generator state
unchanged, every returned item is a rendered copy of a stored point, and
re-reading after a read yields the same results. -/
theorem C9_unit_formatting_pure (g : OrderDataGenerator) (count : Option ℤ)
    (hunit : g.unit ≠ "") :
    (g.get_current_data.1 = g ∧ (g.get_history count).1 = g) ∧
    (∀ p ∈ g.history, (p.value.render g.unit).power_demand =
      PDValue.str (toString p.value.power_demand ++ " (" ++ g.unit ++ ")")) ∧
    (g.get_current_data.2 =
      g.history.getLast?.map (fun p => (p.value.render g.unit, p.timestamp))) ∧
    (∀ v ∈ (g.get_history count).2, ∃ p ∈ g.history,
      v = (p.value.render g.unit, p.timestamp)) ∧
    ((g.get_current_data.1).get_current_data = g.get_current_data ∧
      ((g.get_history count).1).get_history count = g.get_history count) := by
  refine ⟨⟨rfl, rfl⟩, ?_, rfl, ?_, rfl, rfl⟩
  · intro p _
    show formatPowerDemand p.value.power_demand g.unit = _
    unfold formatPowerDemand
    rw [if_neg hunit]
  · intro v hv
    cases count with
    | none =>
      rw [show (g.get_history none).2 =
          g.history.map (fun p => (p.value.render g.unit, p.timestamp)) from rfl] at hv
      rw [List.mem_map] at hv
      obtain ⟨p, hp, rfl⟩ := hv
      exact ⟨p, hp, rfl⟩
    | some c =>
      rw [OrderDataGenerator.get_history_some] at hv
      rw [List.mem_map] at hv
      obtain ⟨p, hp, rfl⟩ := hv
      refine ⟨p, ?_, rfl⟩
      by_cases hc : (g.history.length : ℤ) ≤ c
      · rw [if_pos hc] at hp
        exact hp
      · rw [if_neg hc] at hp
        exact pySliceNeg_subset g.history c hp

/-- Witness for C9: a generator with unit `"MW"` and one stored order
whose `power_demand` is 300; the snapshot renders it as the string
`"300 (MW)"` while the stored record stays numeric. -/
theorem C9_unit_formatting_pure_witness :
    (OrderDataGenerator.init 1000 (1, 1) ["bj"] (100, 1000) "MW" 20
        1 "t0" "bj" 300 0).unit ≠ "" ∧
    (OrderDataGenerator.init 1000 (1, 1) ["bj"] (100, 1000) "MW" 20
        1 "t0" "bj" 300 0).get_current_data.2 =
      (OrderDataGenerator.init 1000 (1, 1) ["bj"] (100, 1000) "MW" 20
          1 "t0" "bj" 300 0).history.getLast?.map
        (fun p => (p.value.render (OrderDataGenerator.init 1000 (1, 1) ["bj"] (100, 1000)
          "MW" 20 1 "t0" "bj" 300 0).unit, p.timestamp)) ∧
    (∀ p ∈ (OrderDataGenerator.init 1000 (1, 1) ["bj"] (100, 1000) "MW" 20
        1 "t0" "bj" 300 0).history,
      (p.value.render (OrderDataGenerator.init 1000 (1, 1) ["bj"] (100, 1000) "MW" 20
          1 "t0" "bj" 300 0).unit).power_demand =
        PDValue.str (toString p.value.power_demand ++ " (" ++
          (OrderDataGenerator.init 1000 (1, 1) ["bj"] (100, 1000) "MW" 20
            1 "t0" "bj" 300 0).unit ++ ")")) ∧
    ((OrderDataGenerator.init 1000 (1, 1) ["bj"] (100, 1000) "MW" 20
        1 "t0" "bj" 300 0).get_current_data.2.map (fun v => v.1.power_demand)) =
      some (PDValue.str "300 (MW)") ∧
    (∀ p ∈ (OrderDataGenerator.init 1000 (1, 1) ["bj"] (100, 1000) "MW" 20
        1 "t0" "bj" 300 0).history, p.value.power_demand = 300) := by
  refine ⟨by decide, (C9_unit_formatting_pure _ none (by decide)).2.2.1, ?_, ?_, ?_⟩
  · intro p hp
    exact (C9_unit_formatting_pure _ none (by decide)).2.1 p hp
  · with_unfolding_all decide
  · with_unfolding_all decide

/-! ## Claim C10 -/

/-- C10 counterexample: with `id_increment_range = [0, 0]` (legal draw
`0`), immediately after construction `current_order_id` equals
`order_id_base` — it does not exceed it, even though the constructor did
perform one `update()`. -/
theorem C10_counterexample :
    ¬ ((OrderDataGenerator.init 1000 (0, 0) ["bj"] (100, 1000) "" 20
          0 "t0" "bj" 100 0).order_id_base <
        (OrderDataGenerator.init 1000 (0, 0) ["bj"] (100, 1000) "" 20
          0 "t0" "bj" 100 0).current_order_id) := by
  with_unfolding_all decide

/-- Appending one point and trimming never yields an empty history. -/
theorem trimHistory_append_ne_nil (limit : ℕ) (l : List (DataPoint α)) (a : DataPoint α) :
    trimHistory limit (l ++ [a]) ≠ [] := by
  intro h
  have hl := trimHistory_getLast? limit l a
  rw [h] at hl
  simp at hl

/-- The dedup-append phase applied to an empty history always appends
(and so leaves a non-empty history). -/
theorem StepDataGenerator.record_ne_nil (g : StepDataGenerator) (now : ℚ)
    (h : g.history = []) : (g.record now).history ≠ [] := by
  unfold StepDataGenerator.record
  rw [if_pos (Or.inl h)]
  show trimHistory g.history_limit
    (g.history ++ [⟨g.values.getD g.current_index 0, now⟩]) ≠ []
  rw [h]
  exact trimHistory_append_ne_nil _ [] _

/-- C10 amended: constructing a random-walk, a step-sequence with
non-empty `values`, or an order-event generator performs one `update()`,
so immediately after construction the history is non-empty, and the
order generator's `current_order_id` equals `order_id_base` plus the
constructor's drawn increment — hence it exceeds `order_id_base`
whenever that increment is positive (always the case for a lower bound
≥ 1, e.g. the default range `[1, 10]`, but not for a range admitting 0).
A sum-aggregate's constructor performs no update: its history is empty
and `current_value` is `0.0` until `first_update()`/`update()` runs. -/
theorem C10_constructor_update_effects :
    (∀ (base : ℚ) (upd : ℚ × ℚ) (lo hi : ℚ) (limit : ℕ) (c t : ℚ),
        (RandomDataGenerator.init base upd lo hi limit c t).history ≠ []) ∧
    (∀ (values : List ℚ) (dwell : ℚ) (loop : Bool) (limit : ℕ) (ti t : ℚ),
        values ≠ [] →
        (StepDataGenerator.init values dwell loop limit ti t).history ≠ []) ∧
    (∀ (baseId : ℤ) (incR : ℤ × ℤ) (locs : List String) (pdR : ℤ × ℤ) (u : String)
        (limit : ℕ) (inc : ℤ) (ot loc : String) (pd : ℤ) (t : ℚ),
        (OrderDataGenerator.init baseId incR locs pdR u limit inc ot loc pd t).history ≠ [] ∧
        (OrderDataGenerator.init baseId incR locs pdR u limit inc ot loc pd
            t).current_order_id = baseId + inc ∧
        (1 ≤ inc →
          baseId < (OrderDataGenerator.init baseId incR locs pdR u limit inc ot loc pd
            t).current_order_id)) ∧
    (∀ (sources : List String) (mgr : Bool) (limit : ℕ),
        (SumDataGenerator.init sources mgr limit).history = [] ∧
        (SumDataGenerator.init sources mgr limit).current_value = 0) := by
  refine ⟨?_, ?_, ?_, ?_⟩
  · intro base upd lo hi limit c t
    exact trimHistory_append_ne_nil limit [] _
  · intro values dwell loop limit ti t hvals
    unfold StepDataGenerator.init StepDataGenerator.update
    rw [if_neg hvals]
    exact StepDataGenerator.record_ne_nil _ t (StepDataGenerator.advance_fields _ t).1
  · intro baseId incR locs pdR u limit inc ot loc pd t
    refine ⟨trimHistory_append_ne_nil limit [] _, rfl, ?_⟩
    intro hinc
    show baseId < baseId + inc
    omega
  · intro sources mgr limit
    exact ⟨rfl, rfl⟩

/-- Witness for C10 amended at concrete configurations (the order
generator's constructor draw is 7 ≥ 1, so the id strictly exceeds the
base after construction; the sum generator starts empty). -/
theorem C10_constructor_update_effects_witness :
    (RandomDataGenerator.init 10 (-1, 1) 0 100 200 1 0).history ≠ [] ∧
    (StepDataGenerator.init [4, 5] 1 true 200 0 0).history ≠ [] ∧
    (OrderDataGenerator.init 1000 (1, 10) ["bj"] (100, 1000) "MW" 20
        7 "t0" "bj" 300 0).history ≠ [] ∧
    (1000 : ℤ) < (OrderDataGenerator.init 1000 (1, 10) ["bj"] (100, 1000) "MW" 20
        7 "t0" "bj" 300 0).current_order_id ∧
    (SumDataGenerator.init ["A"] true 200).history = [] :=
  ⟨C10_constructor_update_effects.1 10 (-1, 1) 0 100 200 1 0,
    C10_constructor_update_effects.2.1 [4, 5] 1 true 200 0 0 (by decide),
    (C10_constructor_update_effects.2.2.1 1000 (1, 10) ["bj"] (100, 1000) "MW" 20
      7 "t0" "bj" 300 0).1,
    (C10_constructor_update_effects.2.2.1 1000 (1, 10) ["bj"] (100, 1000) "MW" 20
      7 "t0" "bj" 300 0).2.2 (by decide),
    (C10_constructor_update_effects.2.2.2 ["A"] true 200).1⟩
